import Mathlib

/-!
Shallow embedding of the BDA-DASHBOARD repository (src/target.py and
src/GP.py), together with a spec-modelled slab-rebate calculator for the
part of the repository whose code is not present under src/.

Numeric cells are pandas float64 values; we model them as exact rationals
extended with NaN and the two infinities (`PVal`), with the IEEE-style
propagation rules that numpy/pandas use for the operations the scripts
perform (division by zero yields an infinity or NaN, NaN propagates,
comparisons with NaN are false).
-/

/-- A pandas float64 cell value: a finite (exact rational) number, NaN,
 or one of the two infinities. -/
inductive PVal where
  | num (q : ℚ)
  | nan
  | inf
  | ninf
deriving DecidableEq

namespace PVal

/-- Subtraction of pandas values (IEEE propagation). -/
def sub : PVal → PVal → PVal
  | num a, num b => num (a - b)
  | nan, _ => nan
  | _, nan => nan
  | inf, inf => nan
  | ninf, ninf => nan
  | inf, _ => inf
  | ninf, _ => ninf
  | _, inf => ninf
  | _, ninf => inf

/-- Multiplication of pandas values (IEEE propagation; `inf * 0 = NaN`). -/
def mul : PVal → PVal → PVal
  | num a, num b => num (a * b)
  | nan, _ => nan
  | _, nan => nan
  | inf, num b => if 0 < b then inf else if b < 0 then ninf else nan
  | num a, inf => if 0 < a then inf else if a < 0 then ninf else nan
  | ninf, num b => if 0 < b then ninf else if b < 0 then inf else nan
  | num a, ninf => if 0 < a then ninf else if a < 0 then inf else nan
  | inf, inf => inf
  | inf, ninf => ninf
  | ninf, inf => ninf
  | ninf, ninf => inf

/-- Division of pandas values.  Dividing a nonzero finite number by zero
 yields a signed infinity, `0 / 0` yields NaN (this is numpy behaviour:
 no exception is raised). -/
def div : PVal → PVal → PVal
  | num a, num b =>
      if b = 0 then (if 0 < a then inf else if a < 0 then ninf else nan)
      else num (a / b)
  | nan, _ => nan
  | _, nan => nan
  | num _, inf => num 0
  | num _, ninf => num 0
  | inf, num b => if b < 0 then ninf else inf
  | ninf, num b => if b < 0 then inf else ninf
  | inf, inf => nan
  | inf, ninf => nan
  | ninf, inf => nan
  | ninf, ninf => nan

/-- The comparison `v >= c` against a finite constant, as Python evaluates
 it on floats: false for NaN. -/
def ge (v : PVal) (c : ℚ) : Bool :=
  match v with
  | num a => decide (c ≤ a)
  | inf => true
  | nan => false
  | ninf => false

/-- The comparison `v > 0` as Python evaluates it on floats. -/
def gt0 : PVal → Bool
  | num a => decide (0 < a)
  | inf => true
  | nan => false
  | ninf => false

/-- The comparison `v == 0` as Python evaluates it on floats
 (false for NaN and the infinities). -/
def eqZero : PVal → Bool
  | num a => decide (a = 0)
  | _ => false

/-- `pd.isna`: true exactly on NaN. -/
def isna : PVal → Bool
  | nan => true
  | _ => false

/-- `Series.fillna(0)`: replace NaN by 0, leave everything else
 (including the infinities) untouched. -/
def fillna0 : PVal → PVal
  | nan => num 0
  | v => v
end PVal

/-- Round a rational to the nearest integer, ties to even (the rounding
 numpy uses for `Series.round`). -/
def rhe (q : ℚ) : ℤ :=
  if q - ⌊q⌋ < 1 / 2 then ⌊q⌋
  else if 1 / 2 < q - ⌊q⌋ then ⌊q⌋ + 1
  else if 2 ∣ ⌊q⌋ then ⌊q⌋ else ⌊q⌋ + 1

/-- Round a rational to 1 decimal place (`Series.round(1)`). -/
def round1q (q : ℚ) : ℚ := (rhe (q * 10) : ℚ) / 10

/-- `Series.round(1)` on a pandas value: rounds finite values, fixes NaN
 and the infinities. -/
def PVal.round1 : PVal → PVal
  | PVal.num a => PVal.num (round1q a)
  | v => v

/-- Substring test on lists of characters (Python's `in` on strings). -/
def infixIn (p : List Char) : List Char → Bool
  | [] => p.isEmpty
  | c :: t => p.isPrefixOf (c :: t) || infixIn p t

/-- Python's `pat in s` substring containment. -/
def strContains (s pat : String) : Bool := infixIn pat.data s.data

/-- Python's `str.upper()` (the data is ASCII). -/
def pyUpper (s : String) : String := String.mk (s.data.map Char.toUpper)

/-- Python's `str.strip()`: drop leading and trailing whitespace. -/
def stripChars (l : List Char) : List Char :=
  ((l.dropWhile Char.isWhitespace).reverse.dropWhile Char.isWhitespace).reverse

/-- Python's `str.strip()` on a string. -/
def pyStrip (s : String) : String := String.mk (stripChars s.data)

/-- Split a character list at whitespace into the maximal non-empty
 tokens, the way Python's argumentless `str.split()` does; `cur` holds
 the (reversed) token being read. -/
def tokensAux (cur : List Char) : List Char → List (List Char)
  | [] => if cur.isEmpty then [] else [cur.reverse]
  | c :: t =>
      if c.isWhitespace then
        if cur.isEmpty then tokensAux [] t else cur.reverse :: tokensAux [] t
      else tokensAux (c :: cur) t

/-- Python's `str.split()` followed by taking element 0: the first
 whitespace-separated token.  (On an all-whitespace string pandas yields
 NaN; we return `""`, which equals none of the month names the scripts
 compare against.) -/
def firstToken (s : String) : String :=
  match tokensAux [] s.data with
  | [] => ""
  | t :: _ => String.mk t

/-- src/target.py `detect_type` (lines 95-105): classify a MAIN cell as
 TARGET, ACHIEVED or IGNORE; anything mentioning DAILY is ignored. -/
def detect_type (text : String) : String :=
  let t := pyUpper text
  if strContains t "TARGET" ∧ ¬ strContains t "DAILY" then "TARGET"
  else if strContains t "ACHIEVED" ∧ ¬ strContains t "DAILY" then "ACHIEVED"
  else "IGNORE"

/-- src/target.py line 88: `Month` is the first whitespace token of MAIN. -/
def monthOf (main : String) : String := firstToken main

/-- src/target.py `get_status` (lines 221-230). -/
def get_status (val : PVal) : String :=
  if val.ge 95 then "Excellent"
  else if val.ge 85 then "Good"
  else "Needs Improvement"

/-- src/target.py lines 161-165 and 207-211: `Achievement %` =
 `(achieved / target * 100).round(1)` followed by `fillna(0)`. -/
def achPctOf (target achieved : PVal) : PVal :=
  (((achieved.div target).mul (PVal.num 100)).round1).fillna0

/-- A raw spreadsheet cell as `pd.read_excel` delivers it: a numeric
 value, a text value, or an empty cell (NaN). -/
inductive Cell where
  | num (q : ℚ)
  | str (s : String)
  | empty
deriving DecidableEq

/-- Parse an unsigned decimal literal (digits with at most one point),
 the shape `pd.to_numeric` accepts for the data at hand; anything else
 is non-numeric. -/
def parseUnsigned (l : List Char) : Option ℚ :=
  match l.splitOn '.' with
  | [w] =>
      if w.isEmpty ∨ ¬ w.all Char.isDigit then none
      else some ((w.foldl (fun n c => 10 * n + (c.toNat - 48)) 0 : ℕ) : ℚ)
  | [w, f] =>
      if (w.isEmpty ∧ f.isEmpty) ∨ ¬ w.all Char.isDigit ∨ ¬ f.all Char.isDigit then none
      else
        some (((w.foldl (fun n c => 10 * n + (c.toNat - 48)) 0 : ℕ) : ℚ) +
          ((f.foldl (fun n c => 10 * n + (c.toNat - 48)) 0 : ℕ) : ℚ) / (10 ^ f.length : ℕ))
  | _ => none

/-- Parse a decimal number with optional sign, as `pd.to_numeric` does;
 `none` is NaN (`errors="coerce"`). -/
def parseNum (s : String) : Option ℚ :=
  match stripChars s.data with
  | '-' :: rest => (parseUnsigned rest).map (fun q => -q)
  | '+' :: rest => parseUnsigned rest
  | l => parseUnsigned l

/-- src/target.py lines 71-78 on a text cell: strip the commas
 (`str.replace(",", "")`), map "nan"/"None"/"" to missing, then
 `pd.to_numeric(errors="coerce")`. -/
def cleanString (s : String) : Option ℚ :=
  let s1 := String.mk (s.data.filter (fun c => c ≠ ','))
  if s1 = "nan" ∨ s1 = "None" ∨ s1 = "" then none else parseNum s1

/-- src/target.py lines 69-78 on one cell: a numeric cell round-trips
 through `astype(str)`/`to_numeric`; a text cell is cleaned and parsed;
 an empty cell becomes NaN. -/
def cleanCell : Cell → PVal
  | Cell.num q => PVal.num q
  | Cell.str s =>
      match cleanString s with
      | some q => PVal.num q
      | none => PVal.nan
  | Cell.empty => PVal.nan

/-- One row of the input spreadsheet of src/target.py (the four required
 columns). -/
structure InRow where
  OUTLET : String
  MAIN : String
  TotalSales : Cell
  TotalProfit : Cell
deriving DecidableEq

/-- A cleaned row: numbers coerced, Month and Type extracted. -/
structure CRow where
  OUTLET : String
  MAIN : String
  Month : String
  rtype : String
  TotalSales : PVal
  TotalProfit : PVal
deriving DecidableEq

/-- src/target.py lines 69-108 plus the `dropna(subset=["Total Sales"])`
 of line 81: clean the numeric columns, drop rows whose Total Sales is
 NaN, extract Month and Type. -/
def cleanRows (l : List InRow) : List CRow :=
  (l.map (fun r =>
    { OUTLET := r.OUTLET
      MAIN := r.MAIN
      Month := monthOf r.MAIN
      rtype := detect_type r.MAIN
      TotalSales := cleanCell r.TotalSales
      TotalProfit := cleanCell r.TotalProfit : CRow })).filter
    (fun r => ¬ r.TotalSales.isna)

/-- src/target.py line 122: the TARGET rows. -/
def targetsOf (l : List InRow) : List CRow :=
  (cleanRows l).filter (fun r => r.rtype = "TARGET")

/-- src/target.py line 123: the ACHIEVED rows. -/
def achievedOf (l : List InRow) : List CRow :=
  (cleanRows l).filter (fun r => r.rtype = "ACHIEVED")

/-- A merged row before the base calculations: target columns always
 present, achieved columns NaN when no ACHIEVED row matched. -/
structure MRow where
  OUTLET : String
  Month : String
  TargetSales : PVal
  TargetProfit : PVal
  AchievedSales : PVal
  AchievedProfit : PVal
deriving DecidableEq

/-- src/target.py lines 145-150: left merge of targets with achieved on
 (OUTLET, Month); an unmatched target row keeps NaN achieved columns, a
 target row with several matches is repeated for each. -/
def mergeTA (l : List InRow) : List MRow :=
  (targetsOf l).flatMap (fun t =>
    let ms := (achievedOf l).filter (fun a => a.OUTLET = t.OUTLET ∧ a.Month = t.Month)
    if ms.isEmpty then
      [{ OUTLET := t.OUTLET, Month := t.Month, TargetSales := t.TotalSales,
         TargetProfit := t.TotalProfit, AchievedSales := PVal.nan,
         AchievedProfit := PVal.nan : MRow }]
    else ms.map (fun a =>
      { OUTLET := t.OUTLET, Month := t.Month, TargetSales := t.TotalSales,
        TargetProfit := t.TotalProfit, AchievedSales := a.TotalSales,
        AchievedProfit := a.TotalProfit : MRow }))

/-- A summary row after the base calculations of lines 157-165. -/
structure SRow where
  OUTLET : String
  Month : String
  TargetSales : PVal
  TargetProfit : PVal
  AchievedSales : PVal
  AchievedProfit : PVal
  SalesGap : PVal
  AchPct : PVal
deriving DecidableEq

/-- src/target.py lines 157-165: fill missing achieved sales with 0,
 compute the gap and the achievement percentage. -/
def baseCalcRow (m : MRow) : SRow :=
  let a := m.AchievedSales.fillna0
  { OUTLET := m.OUTLET, Month := m.Month, TargetSales := m.TargetSales,
    TargetProfit := m.TargetProfit, AchievedSales := a,
    AchievedProfit := m.AchievedProfit,
    SalesGap := m.TargetSales.sub a,
    AchPct := achPctOf m.TargetSales a }

/-- A summary row joined with its outlet's January achievement
 percentage (the `Jan %` column of lines 172-186). -/
structure JRow where
  OUTLET : String
  Month : String
  TargetSales : PVal
  TargetProfit : PVal
  AchievedSales : PVal
  AchievedProfit : PVal
  SalesGap : PVal
  AchPct : PVal
  JanPct : PVal
deriving DecidableEq

/-- Attach a `Jan %` value to a summary row. -/
def toJRow (r : SRow) (j : PVal) : JRow :=
  { OUTLET := r.OUTLET, Month := r.Month, TargetSales := r.TargetSales,
    TargetProfit := r.TargetProfit, AchievedSales := r.AchievedSales,
    AchievedProfit := r.AchievedProfit, SalesGap := r.SalesGap,
    AchPct := r.AchPct, JanPct := j }

/-- src/target.py line 214: drop the `Jan %` column again. -/
def dropJanCol (r : JRow) : SRow :=
  { OUTLET := r.OUTLET, Month := r.Month, TargetSales := r.TargetSales,
    TargetProfit := r.TargetProfit, AchievedSales := r.AchievedSales,
    AchievedProfit := r.AchievedProfit, SalesGap := r.SalesGap,
    AchPct := r.AchPct }

/-- src/target.py lines 172-178: the January achievement percentage per
 outlet, taken from the JAN rows of the summary. -/
def janPerf (s : List SRow) : List (String × PVal) :=
  (s.filter (fun r => r.Month = "JAN")).map (fun r => (r.OUTLET, r.AchPct))

/-- src/target.py lines 181-186: left merge of the summary with the
 January percentages on OUTLET. -/
def mergeJan (s : List SRow) : List JRow :=
  s.flatMap (fun r =>
    let js := (janPerf s).filter (fun p => p.1 = r.OUTLET)
    if js.isEmpty then [toJRow r PVal.nan]
    else js.map (fun p => toJRow r p.2))

/-- src/target.py lines 189-201 for one row: if the month is FEB or MAR
 and the achieved sales are missing or zero and January's ratio is known
 and positive, substitute `Target Sales * Jan % / 100`. -/
def backfillRow (r : JRow) : JRow :=
  if r.Month = "FEB" ∨ r.Month = "MAR" then
    if r.AchievedSales.isna ∨ r.AchievedSales.eqZero then
      let jan_pct := r.JanPct.div (PVal.num 100)
      if (¬ jan_pct.isna) ∧ jan_pct.gt0 then
        { r with AchievedSales := r.TargetSales.mul jan_pct }
      else r
    else r
  else r

/-- src/target.py lines 204-211: recompute the gap and the achievement
 percentage from the (possibly substituted) achieved sales. -/
def recalcRow (r : JRow) : JRow :=
  { r with SalesGap := r.TargetSales.sub r.AchievedSales,
           AchPct := achPctOf r.TargetSales r.AchievedSales }

/-- src/target.py lines 172-214 as one pass over the summary:
 merge in `Jan %`, backfill FEB/MAR, recompute, drop `Jan %`. -/
def febMarPass (s : List SRow) : List SRow :=
  (mergeJan s).map (fun r => dropJanCol (recalcRow (backfillRow r)))

/-- The whole summary pipeline of src/target.py lines 69-214. -/
def summaryOf (l : List InRow) : List SRow :=
  febMarPass ((mergeTA l).map baseCalcRow)

/-- The seven columns the dashboard table shows (src/target.py
 lines 293-301), Status included (line 233). -/
structure DRow where
  OUTLET : String
  Month : String
  TargetSales : PVal
  AchievedSales : PVal
  SalesGap : PVal
  AchPct : PVal
  Status : String
deriving DecidableEq

/-- Project a summary row onto the displayed columns, Status computed
 from the achievement percentage exactly as line 233 does. -/
def displayRow (r : SRow) : DRow :=
  { OUTLET := r.OUTLET, Month := r.Month, TargetSales := r.TargetSales,
    AchievedSales := r.AchievedSales, SalesGap := r.SalesGap,
    AchPct := r.AchPct, Status := get_status r.AchPct }

/-- The displayed table for the whole input (no sidebar filters). -/
def displayOf (l : List InRow) : List DRow :=
  (summaryOf l).map displayRow

/-- src/GP.py lines 56-64: the fixed list of labour-area outlets. -/
def labour_outlets : List String :=
  ["AZHAR AL MADINA HYPERMARKET",
   "AZHAR GENERAL TRADING",
   "BLUE PEARL SUPERMARKET",
   "FIDA AL MADINA HYPERMARKET",
   "HADEQAT AL MADINA HYPERMARKET LLC",
   "HILAL AL MADINA HYPERMARKET LLC",
   "SHAMS AL MADINA HYPERMARKET LLC"]

/-- src/GP.py line 49: outlet names are stripped and upper-cased. -/
def cleanOutlet (s : String) : String := pyUpper (pyStrip s)

/-- src/GP.py lines 67-69: a cleaned outlet is "Labour" when it is in
 `labour_outlets`, otherwise "Family". -/
def areaTypeOf (x : String) : String :=
  if x ∈ labour_outlets then "Labour" else "Family"

/-- The AREA_TYPE a raw outlet cell ends up with after cleaning and
 classification. -/
def classifyOutlet (raw : String) : String := areaTypeOf (cleanOutlet raw)

/-- A rebate tier: a purchase threshold and the rebate percentage it
 unlocks. -/
structure Tier where
  threshold : ℚ
  percent : ℚ
deriving DecidableEq

/-- Modelled from the spec: the slab-rebate calculator's tier filter is
 not under src/ (only the reconciliation scripts are); spec section 4.1
 step 1 keeps the active tiers, those with `threshold > 0`. -/
def activeTiers (ts : List Tier) : List Tier :=
  ts.filter (fun t => decide (0 < t.threshold))

/-- Modelled from the spec: the slab-rebate calculator `evaluate` is not
 under src/; spec section 4.1 step 3 iterates the active tiers in their
 configured order and keeps the percentage of the last achieved tier
 (`threshold <= actual_purchase`), 0 when none is achieved. -/
def effPercent (ts : List Tier) (actual : ℚ) : ℚ :=
  (activeTiers ts).foldl
    (fun acc t => if t.threshold ≤ actual then t.percent else acc) 0

/-- Modelled from the spec: section 4.1 step 4, the effective rebate
 value. -/
def effRebateValue (ts : List Tier) (actual : ℚ) : ℚ :=
  actual * (effPercent ts actual / 100)

/-- The active tiers achieved at a given purchase level. -/
def achievedActive (ts : List Tier) (actual : ℚ) : List Tier :=
  (activeTiers ts).filter (fun t => decide (t.threshold ≤ actual))

/-- A FEB summary row joined with a known January percentage of 90, its
 achieved sales still zero (concrete instance used by the witnesses). -/
def febRow : JRow :=
  { OUTLET := "X", Month := "FEB", TargetSales := PVal.num 1000, TargetProfit := PVal.num 7,
    AchievedSales := PVal.num 0, AchievedProfit := PVal.num 5, SalesGap := PVal.num 1000,
    AchPct := PVal.num 0, JanPct := PVal.num 90 }

/-- The same row as `febRow` but with the achieved sales of 900 present as
 actual data (and the base calculations already reflecting it). -/
def febActualRow : JRow :=
  { febRow with
    AchievedSales := PVal.num 900
    SalesGap := PVal.num 100
    AchPct := PVal.num 90 }

/-- A base-calculated APR summary row (concrete instance used by a witness). -/
def aprRow : SRow :=
  { OUTLET := "Y", Month := "APR", TargetSales := PVal.num 1000, TargetProfit := PVal.num 7,
    AchievedSales := PVal.num 900, AchievedProfit := PVal.num 5, SalesGap := PVal.num 100,
    AchPct := PVal.num 90 }

/-- When the FEB/MAR conditions of src/target.py lines 191-197 all hold,
 the loop body replaces the achieved sales by `Target Sales * Jan % / 100`
 and changes nothing else. -/
theorem backfill_subst (r : JRow) (p : ℚ)
    (hm : r.Month = "FEB" ∨ r.Month = "MAR")
    (ha : r.AchievedSales.isna ∨ r.AchievedSales.eqZero)
    (hj : r.JanPct = PVal.num p) (hp : 0 < p) :
    backfillRow r = { r with AchievedSales := r.TargetSales.mul (PVal.num (p / 100)) } := by
  unfold backfillRow
  rw [if_pos hm, if_pos ha]
  simp only [hj]
  have hd : (PVal.num p).div (PVal.num 100) = PVal.num (p / 100) := by
    norm_num [PVal.div]
  rw [hd, if_pos]
  constructor
  · simp [PVal.isna]
  · simp [PVal.gt0]
    positivity

/-- The backfill loop body touches no column other than the achieved sales. -/
theorem backfill_fields (q : JRow) :
    (backfillRow q).OUTLET = q.OUTLET ∧ (backfillRow q).Month = q.Month ∧
    (backfillRow q).TargetSales = q.TargetSales ∧
    (backfillRow q).TargetProfit = q.TargetProfit ∧
    (backfillRow q).AchievedProfit = q.AchievedProfit ∧
    (backfillRow q).JanPct = q.JanPct := by
  simp only [backfillRow]
  repeat' split
  all_goals exact ⟨rfl, rfl, rfl, rfl, rfl, rfl⟩

/-- The backfill loop body skips every row whose month is not FEB or MAR. -/
theorem backfill_noop (q : JRow) (hq : ¬ (q.Month = "FEB" ∨ q.Month = "MAR")) :
    backfillRow q = q := by
  rw [backfillRow, if_neg hq]

/-- A fold that keeps the image of every element satisfying `p` ends at the
 image of the last such element, or at the start value when none does. -/
theorem foldl_if_getLast {α β : Type} (p : α → Prop) [DecidablePred p] (f : α → β) :
    ∀ (l : List α) (init : β),
      l.foldl (fun acc t => if p t then f t else acc) init =
        (((l.filter (fun t => decide (p t))).getLast?).map f).getD init := by
  intro l
  induction l using List.reverseRecOn with
  | nil => intro init; simp
  | append_singleton xs a ih =>
      intro init
      by_cases h : p a
      · simp [List.foldl_append, h, List.filter_append, ih]
      · simp [List.foldl_append, h, List.filter_append, ih]

/-- Every cleaned row's Type column is `detect_type` of its MAIN cell. -/
theorem mem_cleanRows_rtype {l : List InRow} {t : CRow} (h : t ∈ cleanRows l) :
    t.rtype = detect_type t.MAIN := by
  rw [cleanRows, List.mem_filter] at h
  obtain ⟨hm, _⟩ := h
  rw [List.mem_map] at hm
  obtain ⟨i, _, rfl⟩ := hm
  rfl

/-- A MAIN cell `detect_type` does not map to IGNORE contains no DAILY. -/
theorem detect_not_daily {s : String} (h : detect_type s ≠ "IGNORE") :
    strContains (pyUpper s) "DAILY" = false := by
  by_contra hd
  rw [Bool.not_eq_false] at hd
  apply h
  rw [detect_type]
  simp [hd]

/-- Claim C1 counterexample: for the reconciled pair target = 0,
 achieved = 500 the code's achievement percentage is +infinity (numpy
 division by zero), not the 0 the claim states; the gap is indeed -500. -/
theorem claim1_counterexample :
    achPctOf (PVal.num 0) (PVal.num 500) ≠ PVal.num 0 ∧
    achPctOf (PVal.num 0) (PVal.num 500) = PVal.inf ∧
    (PVal.num 0).sub (PVal.num 500) = PVal.num (-500) := by
  have h : achPctOf (PVal.num 0) (PVal.num 500) = PVal.inf := rfl
  refine ⟨by simp [h], h, by norm_num [PVal.sub]⟩

/-- Claim C1 as amended: the achievement percentage is 0 only for
 target = 0 and achieved = 0 (NaN filled by `fillna(0)`); target = 0 with
 achieved positive gives +infinity and with achieved negative -infinity;
 any nonzero target (negative included) gives achieved / target * 100
 rounded to one decimal place.  The gap for (0, 500) is -500. -/
theorem claim1_amended (t a : ℚ) :
    achPctOf (PVal.num t) (PVal.num a) =
      (if t = 0 then (if 0 < a then PVal.inf else if a < 0 then PVal.ninf else PVal.num 0)
       else PVal.num (round1q (a / t * 100))) ∧
    (PVal.num 0).sub (PVal.num 500) = PVal.num (-500) := by
  constructor
  · by_cases ht : t = 0
    · by_cases ha1 : 0 < a
      · norm_num [achPctOf, PVal.div, ht, ha1, PVal.mul, PVal.round1, PVal.fillna0]
      · by_cases ha2 : a < 0
        · norm_num [achPctOf, PVal.div, ht, ha1, ha2, PVal.mul, PVal.round1, PVal.fillna0]
        · norm_num [achPctOf, PVal.div, ht, ha1, ha2, PVal.mul, PVal.round1, PVal.fillna0]
    · norm_num [achPctOf, PVal.div, ht, PVal.mul, PVal.round1, PVal.fillna0]
  · norm_num [PVal.sub]

/-- Claim C2: a FEB/MAR row with zero or missing achieved sales and a
 known positive January percentage gets the estimated achieved amount
 `target * (Jan % / 100)`, and the gap and achievement percentage are
 recomputed from that estimate. -/
theorem claim2_backfill (r : JRow) (p : ℚ)
    (hm : r.Month = "FEB" ∨ r.Month = "MAR")
    (ha : r.AchievedSales.isna ∨ r.AchievedSales.eqZero)
    (hj : r.JanPct = PVal.num p) (hp : 0 < p) :
    (recalcRow (backfillRow r)).AchievedSales = r.TargetSales.mul (PVal.num (p / 100)) ∧
    (recalcRow (backfillRow r)).SalesGap =
      r.TargetSales.sub (r.TargetSales.mul (PVal.num (p / 100))) ∧
    (recalcRow (backfillRow r)).AchPct =
      achPctOf r.TargetSales (r.TargetSales.mul (PVal.num (p / 100))) := by
  rw [backfill_subst r p hm ha hj hp]
  exact ⟨rfl, rfl, rfl⟩

/-- Claim C2 witness: at target = 1000, achieved = 0, Jan % = 90 the
 estimate is 900, the gap 100, the achievement percentage 90.0 and the
 status "Good". -/
theorem claim2_backfill_witness :
    (recalcRow (backfillRow febRow)).AchievedSales = PVal.num 900 ∧
    (recalcRow (backfillRow febRow)).SalesGap = PVal.num 100 ∧
    (recalcRow (backfillRow febRow)).AchPct = PVal.num 90 ∧
    get_status (PVal.num 90) = "Good" := by
  obtain ⟨h1, h2, h3⟩ :=
    claim2_backfill febRow 90 (Or.inl rfl)
      (Or.inr (by norm_num [febRow, PVal.eqZero])) rfl (by norm_num)
  refine ⟨?_, ?_, ?_, by norm_num [get_status, PVal.ge]⟩
  · rw [h1]; norm_num [febRow, PVal.mul]
  · rw [h2]; norm_num [febRow, PVal.mul, PVal.sub]
  · rw [h3]
    norm_num [febRow, PVal.mul, achPctOf, PVal.div, PVal.round1, PVal.fillna0, round1q, rhe]

/-- Claim C3: the status bands are exactly >= 95 "Excellent",
 85 <= p < 95 "Good", below 85 "Needs Improvement", with both lower
 bounds inclusive. -/
theorem claim3_status_bands (v : ℚ) :
    get_status (PVal.num v) =
      (if 95 ≤ v then "Excellent" else if 85 ≤ v then "Good" else "Needs Improvement") ∧
    get_status (PVal.num 95) = "Excellent" ∧ get_status (PVal.num 85) = "Good" := by
  refine ⟨?_, by norm_num [get_status, PVal.ge], by norm_num [get_status, PVal.ge]⟩
  by_cases h1 : 95 ≤ v <;> by_cases h2 : 85 ≤ v <;>
    simp [get_status, PVal.ge, h1, h2]

/-- Claim C4 counterexample: the FEB row whose achieved sales were
 replaced by the estimate 900 is displayed exactly like a row whose
 actual achieved sales are 900 — the result carries no estimated flag. -/
theorem claim4_counterexample :
    (backfillRow febRow).AchievedSales = PVal.num 900 ∧
    febRow.AchievedSales = PVal.num 0 ∧
    displayRow (dropJanCol (recalcRow (backfillRow febRow))) =
      displayRow (dropJanCol (recalcRow (backfillRow febActualRow))) := by
  norm_num [febRow, febActualRow, backfillRow, recalcRow, dropJanCol, displayRow, PVal.isna,
    PVal.eqZero, PVal.div, PVal.mul, PVal.sub, PVal.gt0, achPctOf, PVal.round1, PVal.fillna0,
    round1q, rhe, get_status, PVal.ge]

/-- Claim C4 as amended: the substituted estimate is written into the
 same Achieved Sales column with no estimated marker, so any row that
 received an estimate is indistinguishable in the displayed result from
 a row whose actual achieved amount equals that estimate. -/
theorem claim4_amended (r : JRow) (p : ℚ)
    (hm : r.Month = "FEB" ∨ r.Month = "MAR")
    (ha : r.AchievedSales.isna ∨ r.AchievedSales.eqZero)
    (hj : r.JanPct = PVal.num p) (hp : 0 < p) :
    displayRow (dropJanCol (recalcRow (backfillRow r))) =
      displayRow (dropJanCol (recalcRow (backfillRow
        { r with AchievedSales := r.TargetSales.mul (PVal.num (p / 100)) }))) := by
  have hb := backfill_subst r p hm ha hj hp
  have hb2 : backfillRow { r with AchievedSales := r.TargetSales.mul (PVal.num (p / 100)) } =
      { r with AchievedSales := r.TargetSales.mul (PVal.num (p / 100)) } := by
    by_cases he : ((r.TargetSales.mul (PVal.num (p / 100))).isna ∨
        (r.TargetSales.mul (PVal.num (p / 100))).eqZero)
    · have h := backfill_subst
        { r with AchievedSales := r.TargetSales.mul (PVal.num (p / 100)) } p
        (by simpa using hm) (by simpa using he) (by simpa using hj) hp
      simpa using h
    · unfold backfillRow
      rw [if_pos (show ({ r with AchievedSales := r.TargetSales.mul (PVal.num (p / 100)) } : JRow).Month = "FEB" ∨ ({ r with AchievedSales := r.TargetSales.mul (PVal.num (p / 100)) } : JRow).Month = "MAR" by simpa using hm)]
      rw [if_neg (by simpa using he)]
  rw [hb, hb2]

/-- Claim C4 witness: the concrete FEB row with Jan % = 90 displays the
 same as its actual-data counterpart. -/
theorem claim4_amended_witness :
    displayRow (dropJanCol (recalcRow (backfillRow febRow))) =
      displayRow (dropJanCol (recalcRow (backfillRow
        { febRow with AchievedSales := febRow.TargetSales.mul (PVal.num ((90:ℚ) / 100)) }))) :=
  claim4_amended febRow 90 (Or.inl rfl)
    (Or.inr (by norm_num [febRow, PVal.eqZero])) rfl (by norm_num)

/-- Claim C5: the gap column always equals target minus achieved — after
 the base calculation, after a recalculation, and after the carry-forward
 substitution followed by the recalculation. -/
theorem claim5_gap (m : MRow) (r : JRow) :
    (baseCalcRow m).SalesGap =
      (baseCalcRow m).TargetSales.sub (baseCalcRow m).AchievedSales ∧
    (recalcRow r).SalesGap =
      (recalcRow r).TargetSales.sub (recalcRow r).AchievedSales ∧
    (recalcRow (backfillRow r)).SalesGap =
      (recalcRow (backfillRow r)).TargetSales.sub
        (recalcRow (backfillRow r)).AchievedSales := by
  exact ⟨rfl, rfl, rfl⟩

/-- Claim C6 counterexample: a TARGET row whose Total Sales cell is
 absent is dropped by `dropna`, not coerced to 0 — the summary contains
 no row for it. -/
theorem claim6_counterexample :
    summaryOf [{ OUTLET := "X", MAIN := "JAN TARGET", TotalSales := Cell.empty,
                 TotalProfit := Cell.num 5 }] = [] ∧
    cleanCell Cell.empty ≠ PVal.num 0 := by
  refine ⟨by decide, by decide⟩

/-- Claim C6 as amended: non-numeric or absent cells are coerced to NaN
 without ever raising; a row whose Total Sales is NaN is dropped before
 the split, so a TARGET row with a bad Total Sales yields no summary row,
 while a missing or non-numeric achieved amount leaves the target row in
 the summary with Achieved Sales treated as 0. -/
theorem claim6_amended (c : Cell) (hc : cleanCell c = PVal.nan) :
    summaryOf
      [{ OUTLET := "X", MAIN := "JAN TARGET", TotalSales := Cell.num 1000,
         TotalProfit := Cell.num 7 },
       { OUTLET := "X", MAIN := "JAN ACHIEVED", TotalSales := c, TotalProfit := Cell.num 5 }] =
    [{ OUTLET := "X", Month := "JAN", TargetSales := PVal.num 1000, TargetProfit := PVal.num 7,
       AchievedSales := PVal.num 0, AchievedProfit := PVal.nan,
       SalesGap := PVal.num 1000, AchPct := PVal.num 0 }] := by
  have h1 : detect_type "JAN TARGET" = "TARGET" := by decide
  have h3 : monthOf "JAN TARGET" = "JAN" := by decide
  have h2 : detect_type "JAN ACHIEVED" = "ACHIEVED" := by decide
  have h4 : monthOf "JAN ACHIEVED" = "JAN" := by decide
  have hclean : cleanRows
      [{ OUTLET := "X", MAIN := "JAN TARGET", TotalSales := Cell.num 1000,
         TotalProfit := Cell.num 7 },
       { OUTLET := "X", MAIN := "JAN ACHIEVED", TotalSales := c, TotalProfit := Cell.num 5 }] =
      [{ OUTLET := "X", MAIN := "JAN TARGET", Month := "JAN", rtype := "TARGET",
         TotalSales := PVal.num 1000, TotalProfit := PVal.num 7 }] := by
    have hnum : ∀ q : ℚ, cleanCell (Cell.num q) = PVal.num q := fun q => rfl
    simp [cleanRows, hc, PVal.isna, h1, h2, h3, h4, hnum]
  have hm : mergeTA
      [{ OUTLET := "X", MAIN := "JAN TARGET", TotalSales := Cell.num 1000,
         TotalProfit := Cell.num 7 },
       { OUTLET := "X", MAIN := "JAN ACHIEVED", TotalSales := c, TotalProfit := Cell.num 5 }] =
      [{ OUTLET := "X", Month := "JAN", TargetSales := PVal.num 1000,
         TargetProfit := PVal.num 7, AchievedSales := PVal.nan,
         AchievedProfit := PVal.nan }] := by
    simp [mergeTA, targetsOf, achievedOf, hclean]
  rw [summaryOf, hm]
  norm_num [baseCalcRow, febMarPass, mergeJan, janPerf, toJRow, backfillRow,
    recalcRow, dropJanCol, achPctOf, PVal.div, PVal.mul, PVal.sub, PVal.round1, PVal.fillna0,
    PVal.eqZero, PVal.isna, round1q, rhe]

/-- Claim C6 witness: with the achieved row's Total Sales cell absent the
 summary still holds the target row, its achieved sales treated as 0. -/
theorem claim6_amended_witness :
    summaryOf
      [{ OUTLET := "X", MAIN := "JAN TARGET", TotalSales := Cell.num 1000,
         TotalProfit := Cell.num 7 },
       { OUTLET := "X", MAIN := "JAN ACHIEVED", TotalSales := Cell.empty,
         TotalProfit := Cell.num 5 }] =
    [{ OUTLET := "X", Month := "JAN", TargetSales := PVal.num 1000, TargetProfit := PVal.num 7,
       AchievedSales := PVal.num 0, AchievedProfit := PVal.nan,
       SalesGap := PVal.num 1000, AchPct := PVal.num 0 }] :=
  claim6_amended Cell.empty rfl

/-- Claim C7: the effective rebate percentage is the one of the last
 achieved tier in the configured sequence (0 with no achieved tier); for
 tiers [(100, 2%), (50, 5%)] and a purchase of 120 it is 5%, not the 2%
 of the numerically larger achieved threshold. -/
theorem claim7_progressive :
    (∀ (ts : List Tier) (x : ℚ), effPercent ts x =
        (((achievedActive ts x).getLast?).map Tier.percent).getD 0) ∧
    effPercent [Tier.mk 100 2, Tier.mk 50 5] 120 = 5 ∧
    effPercent [Tier.mk 100 2, Tier.mk 50 5] 120 ≠ 2 := by
  refine ⟨fun ts x => ?_, ?_, ?_⟩
  · exact foldl_if_getLast (fun t => t.threshold ≤ x) Tier.percent (activeTiers ts) 0
  · norm_num [effPercent, activeTiers, List.filter, List.foldl]
  · norm_num [effPercent, activeTiers, List.filter, List.foldl]

/-- Claim C8: the FEB/MAR backfill pass sends every summary row to a row
 of the original summary with the same outlet, month, target sales,
 target profit and achieved profit, and a row whose month is neither FEB
 nor MAR comes through entirely unchanged. -/
theorem claim8_frame (s : List SRow)
    (hs : ∀ r ∈ s, r.SalesGap = r.TargetSales.sub r.AchievedSales ∧
                   r.AchPct = achPctOf r.TargetSales r.AchievedSales) :
    ∀ r₁ ∈ febMarPass s, ∃ r ∈ s,
      r₁.OUTLET = r.OUTLET ∧ r₁.Month = r.Month ∧
      r₁.TargetSales = r.TargetSales ∧ r₁.TargetProfit = r.TargetProfit ∧
      r₁.AchievedProfit = r.AchievedProfit ∧
      (¬ (r.Month = "FEB" ∨ r.Month = "MAR") → r₁ = r) := by
  intro r₁ hr₁
  rw [febMarPass, List.mem_map] at hr₁
  obtain ⟨j, hj, rfl⟩ := hr₁
  rw [mergeJan, List.mem_flatMap] at hj
  obtain ⟨r, hr, hjr⟩ := hj
  dsimp only at hjr
  have hex : ∃ jp, j = toJRow r jp := by
    split at hjr
    · rw [List.mem_singleton] at hjr
      exact ⟨PVal.nan, hjr⟩
    · rw [List.mem_map] at hjr
      obtain ⟨pp, hpp, hppj⟩ := hjr
      exact ⟨pp.2, hppj.symm⟩
  obtain ⟨jp, rfl⟩ := hex
  obtain ⟨o, mo, ts, tp, asv, ap, sg, pc⟩ := r
  obtain ⟨f1, f2, f3, f4, f5, _⟩ := backfill_fields (toJRow ⟨o, mo, ts, tp, asv, ap, sg, pc⟩ jp)
  refine ⟨⟨o, mo, ts, tp, asv, ap, sg, pc⟩, hr, f1, f2, f3, f4, f5, ?_⟩
  intro hnm
  rw [backfill_noop _ (by simpa [toJRow] using hnm)]
  obtain ⟨hg, hp⟩ := hs _ hr
  simp only at hg hp
  show SRow.mk o mo ts tp asv ap (PVal.sub ts asv) (achPctOf ts asv) = SRow.mk o mo ts tp asv ap sg pc
  rw [← hg, ← hp]

/-- Claim C8 witness: an APR row passes through the backfill pass
 entirely unchanged. -/
theorem claim8_frame_witness :
    ∃ r ∈ [aprRow],
      aprRow.OUTLET = r.OUTLET ∧ aprRow.Month = r.Month ∧
      aprRow.TargetSales = r.TargetSales ∧ aprRow.TargetProfit = r.TargetProfit ∧
      aprRow.AchievedProfit = r.AchievedProfit ∧
      (¬ (r.Month = "FEB" ∨ r.Month = "MAR") → aprRow = r) := by
  have hq : ∀ r ∈ [aprRow], r.SalesGap = r.TargetSales.sub r.AchievedSales ∧
      r.AchPct = achPctOf r.TargetSales r.AchievedSales := by
    intro r hr
    rw [List.mem_singleton] at hr
    subst hr
    constructor
    · norm_num [aprRow, PVal.sub]
    · norm_num [aprRow, achPctOf, PVal.div, PVal.mul, PVal.round1, PVal.fillna0, round1q, rhe]
  have hmj : mergeJan [aprRow] = [toJRow aprRow PVal.nan] := by
    simp [mergeJan, janPerf, aprRow]
  have hr2 : recalcRow (toJRow aprRow PVal.nan) = toJRow aprRow PVal.nan := by
    norm_num [recalcRow, toJRow, aprRow, PVal.sub, achPctOf, PVal.div, PVal.mul,
      PVal.round1, PVal.fillna0, round1q, rhe]
  have hf : febMarPass [aprRow] = [aprRow] := by
    rw [febMarPass, hmj]
    simp only [List.map_cons, List.map_nil]
    rw [backfill_noop _ (by decide), hr2]
    rfl
  exact claim8_frame [aprRow] hq aprRow (by rw [hf]; exact List.mem_singleton.mpr rfl)

/-- Claim C9: `detect_type` always returns TARGET, ACHIEVED or IGNORE
 and sends anything whose upper-case form mentions DAILY to IGNORE, and
 every merged summary row stems from a non-daily TARGET row, optionally
 matched with a non-daily ACHIEVED row of the same outlet and month. -/
theorem claim9_types (l : List InRow) (r : MRow) :
    (∀ s : String, detect_type s = "TARGET" ∨ detect_type s = "ACHIEVED" ∨
      detect_type s = "IGNORE") ∧
    (∀ s : String, strContains (pyUpper s) "DAILY" = true → detect_type s = "IGNORE") ∧
    (r ∈ mergeTA l →
      ∃ t ∈ cleanRows l, t.rtype = "TARGET" ∧ detect_type t.MAIN = "TARGET" ∧
        strContains (pyUpper t.MAIN) "DAILY" = false ∧
        r.OUTLET = t.OUTLET ∧ r.Month = t.Month ∧
        r.TargetSales = t.TotalSales ∧ r.TargetProfit = t.TotalProfit ∧
        ((r.AchievedSales = PVal.nan ∧ r.AchievedProfit = PVal.nan) ∨
         ∃ a ∈ cleanRows l, a.rtype = "ACHIEVED" ∧ detect_type a.MAIN = "ACHIEVED" ∧
           strContains (pyUpper a.MAIN) "DAILY" = false ∧
           a.OUTLET = t.OUTLET ∧ a.Month = t.Month ∧
           r.AchievedSales = a.TotalSales ∧ r.AchievedProfit = a.TotalProfit)) := by
  refine ⟨?_, ?_, ?_⟩
  · intro s
    rw [detect_type]
    split_ifs <;> simp
  · intro s hd
    rw [detect_type]
    simp [hd]
  · intro hr
    rw [mergeTA, List.mem_flatMap] at hr
    obtain ⟨t, ht, hrt⟩ := hr
    rw [targetsOf, List.mem_filter] at ht
    have htc : t ∈ cleanRows l := ht.1
    have htt : t.rtype = "TARGET" := by simpa using ht.2
    have htd : detect_type t.MAIN = "TARGET" := by rw [← mem_cleanRows_rtype htc]; exact htt
    refine ⟨t, htc, htt, htd, detect_not_daily (by rw [htd]; decide), ?_⟩
    dsimp only at hrt
    split at hrt
    · rw [List.mem_singleton] at hrt
      subst hrt
      exact ⟨rfl, rfl, rfl, rfl, Or.inl ⟨rfl, rfl⟩⟩
    · rw [List.mem_map] at hrt
      obtain ⟨a, ha, rfl⟩ := hrt
      rw [List.mem_filter] at ha
      obtain ⟨ha1, ha2⟩ := ha
      rw [achievedOf, List.mem_filter] at ha1
      have hac : a ∈ cleanRows l := ha1.1
      have haa : a.rtype = "ACHIEVED" := by simpa using ha1.2
      have had : detect_type a.MAIN = "ACHIEVED" := by rw [← mem_cleanRows_rtype hac]; exact haa
      have hom : a.OUTLET = t.OUTLET ∧ a.Month = t.Month := by simpa using ha2
      exact ⟨rfl, rfl, rfl, rfl,
        Or.inr ⟨a, hac, haa, had, detect_not_daily (by rw [had]; decide),
          hom.1, hom.2, rfl, rfl⟩⟩

/-- Claim C9 witness: for the concrete input of one JAN TARGET row and
 one JAN ACHIEVED row, the single merged row indeed stems from the
 non-daily TARGET row matched with the non-daily ACHIEVED row. -/
theorem claim9_types_witness :
    ∃ t ∈ cleanRows
        [{ OUTLET := "X", MAIN := "JAN TARGET", TotalSales := Cell.num 1000,
           TotalProfit := Cell.num 7 },
         { OUTLET := "X", MAIN := "JAN ACHIEVED", TotalSales := Cell.num 900,
           TotalProfit := Cell.num 5 }],
      t.rtype = "TARGET" ∧ detect_type t.MAIN = "TARGET" ∧
      strContains (pyUpper t.MAIN) "DAILY" = false ∧
      ({ OUTLET := "X", Month := "JAN", TargetSales := PVal.num 1000,
         TargetProfit := PVal.num 7, AchievedSales := PVal.num 900,
         AchievedProfit := PVal.num 5 } : MRow).OUTLET = t.OUTLET ∧
      ({ OUTLET := "X", Month := "JAN", TargetSales := PVal.num 1000,
         TargetProfit := PVal.num 7, AchievedSales := PVal.num 900,
         AchievedProfit := PVal.num 5 } : MRow).Month = t.Month ∧
      ({ OUTLET := "X", Month := "JAN", TargetSales := PVal.num 1000,
         TargetProfit := PVal.num 7, AchievedSales := PVal.num 900,
         AchievedProfit := PVal.num 5 } : MRow).TargetSales = t.TotalSales ∧
      ({ OUTLET := "X", Month := "JAN", TargetSales := PVal.num 1000,
         TargetProfit := PVal.num 7, AchievedSales := PVal.num 900,
         AchievedProfit := PVal.num 5 } : MRow).TargetProfit = t.TotalProfit ∧
      ((({ OUTLET := "X", Month := "JAN", TargetSales := PVal.num 1000,
           TargetProfit := PVal.num 7, AchievedSales := PVal.num 900,
           AchievedProfit := PVal.num 5 } : MRow).AchievedSales = PVal.nan ∧
        ({ OUTLET := "X", Month := "JAN", TargetSales := PVal.num 1000,
           TargetProfit := PVal.num 7, AchievedSales := PVal.num 900,
           AchievedProfit := PVal.num 5 } : MRow).AchievedProfit = PVal.nan) ∨
       ∃ a ∈ cleanRows
           [{ OUTLET := "X", MAIN := "JAN TARGET", TotalSales := Cell.num 1000,
              TotalProfit := Cell.num 7 },
            { OUTLET := "X", MAIN := "JAN ACHIEVED", TotalSales := Cell.num 900,
              TotalProfit := Cell.num 5 }],
         a.rtype = "ACHIEVED" ∧ detect_type a.MAIN = "ACHIEVED" ∧
         strContains (pyUpper a.MAIN) "DAILY" = false ∧
         a.OUTLET = t.OUTLET ∧ a.Month = t.Month ∧
         ({ OUTLET := "X", Month := "JAN", TargetSales := PVal.num 1000,
            TargetProfit := PVal.num 7, AchievedSales := PVal.num 900,
            AchievedProfit := PVal.num 5 } : MRow).AchievedSales = a.TotalSales ∧
         ({ OUTLET := "X", Month := "JAN", TargetSales := PVal.num 1000,
            TargetProfit := PVal.num 7, AchievedSales := PVal.num 900,
            AchievedProfit := PVal.num 5 } : MRow).AchievedProfit = a.TotalProfit) :=
  (claim9_types
    [{ OUTLET := "X", MAIN := "JAN TARGET", TotalSales := Cell.num 1000,
       TotalProfit := Cell.num 7 },
     { OUTLET := "X", MAIN := "JAN ACHIEVED", TotalSales := Cell.num 900,
       TotalProfit := Cell.num 5 }]
    { OUTLET := "X", Month := "JAN", TargetSales := PVal.num 1000,
      TargetProfit := PVal.num 7, AchievedSales := PVal.num 900,
      AchievedProfit := PVal.num 5 }).2.2 (by decide)

/-- Claim C10: after area classification every row's AREA_TYPE is
 "Labour" or "Family", and it is "Labour" exactly when the stripped,
 upper-cased outlet name is one of the seven labour outlets. -/
theorem claim10_area_classification (s : String) :
    (classifyOutlet s = "Labour" ∨ classifyOutlet s = "Family") ∧
    (classifyOutlet s = "Labour" ↔ cleanOutlet s ∈ labour_outlets) := by
  unfold classifyOutlet areaTypeOf
  by_cases h : cleanOutlet s ∈ labour_outlets <;> simp [h]
